import Mathlib

/-!
Verification development for the EDMI meter driver.

Shallow embedding of the frame codec (driver/frames_codec/generics.py),
the READ_REGISTER_EXT response parser
(driver/frames_codec/read_registers_frame.py), the profile field decoder
(driver/frames_codec/read_profile_frame.py) and the profile download
engine (driver/interface/media.py).  Bytes are modelled as Nat values
below 256; Python byte strings become List Nat; Python exceptions become
an explicit PyResult constructor.
-/

namespace EDMI

/-- Control identifiers from driver/edmi_enums.py. -/
def EDMI_STX_IDEN : Nat := 0x02

def EDMI_ETX_IDEN : Nat := 0x03

def EDMI_DLE_IDEN : Nat := 0x10

def EDMI_XON_IDEN : Nat := 0x11

def EDMI_XOFF_IDEN : Nat := 0x13

def EDMI_IDEN_CORRECTOR : Nat := 0x40

def EDMI_E_FRAME_IDEN : Nat := 0x45

def EDMI_MULTI_ERR_IDEN : Nat := 0x0000FFF1

def EDMI_CLIENT_SERIAL : List Nat := [0x01, 0x2B, 0x16, 0x68, 0xFF, 0xFF]

/-- Numeric values of EDMI_ERROR_CODE (an IntEnum, so members are the ints). -/
def ERR_NONE : Nat := 0x00

def ERR_REGISTER_NOT_FOUND : Nat := 0x03

def ERR_REQUEST_WRONG_LENGTH : Nat := 0x05

def ERR_RESPONSE_CRC_ERROR : Nat := 0x0B

def ERR_REQUEST_RESPONSE_COMMAND_MISMATCH : Nat := 0x0C

def ERR_RESPONSE_WRONG_LENGTH : Nat := 0x11

def ERR_UNIMPLEMENTED_DATA_TYPE : Nat := 0x12

/-- Largest valid EDMI_ERROR_CODE value; EDMI_ERROR_CODE(x) raises above it. -/
def ERR_MAX_CODE : Nat := 0x12

/-- The escape set of generics.py (STX, ETX, XON, XOFF, DLE). -/
def ESCAPE_SET : List Nat := [EDMI_STX_IDEN, EDMI_ETX_IDEN, EDMI_XON_IDEN, EDMI_XOFF_IDEN, EDMI_DLE_IDEN]

/-- Result of a Python function that may raise ValueError. -/
inductive PyResult (α : Type) where
  | ok (a : α)
  | valueError (msg : String)
  deriving DecidableEq

def PyResult.map {α β : Type} (f : α → β) : PyResult α → PyResult β
  | .ok a => .ok (f a)
  | .valueError m => .valueError m

def PyResult.bind {α β : Type} : PyResult α → (α → PyResult β) → PyResult β
  | .ok a, f => f a
  | .valueError m, _ => .valueError m

/-- Big-endian value of a byte list (int.from_bytes(.., big)). -/
def beNat (l : List Nat) : Nat := l.foldl (fun a b => a * 256 + b) 0

/-- Big-endian 4-byte encoding of a 32-bit value (struct.pack with format >I). -/
def u32be (n : Nat) : List Nat :=
  [n / 2 ^ 24 % 256, n / 2 ^ 16 % 256, n / 2 ^ 8 % 256, n % 256]

/-- Two-sided complement reading of a w-bit unsigned value as signed. -/
def toSigned (w n : Nat) : Int :=
  if n < 2 ^ (w - 1) then (n : Int) else (n : Int) - 2 ^ w

/-- Byte-stuffing of the bytes after STX: the loop body of edmi_post_process
(generics.py lines 55-62). -/
def stuffTail : List Nat → List Nat
  | [] => []
  | b :: t =>
    if b ∈ ESCAPE_SET then
      EDMI_DLE_IDEN :: ((b + EDMI_IDEN_CORRECTOR) % 256) :: stuffTail t
    else
      b :: stuffTail t

/-- edmi_post_process (generics.py lines 36-63): empty input maps to empty
output, a first byte other than STX raises, the STX is copied unescaped and
every later byte in the escape set becomes the pair DLE, (b + 0x40) mod 256. -/
def edmi_post_process : List Nat → PyResult (List Nat)
  | [] => .ok []
  | b :: t =>
    if b = EDMI_STX_IDEN then .ok (b :: stuffTail t)
    else .valueError "packet must start with STX"

/-- edmi_pre_process (generics.py lines 65-98): on DLE consume the next byte
and emit (next - 0x40) mod 256 (written as + 192 since bytes are below 256);
a DLE with no following byte raises ValueError. -/
def edmi_pre_process : List Nat → PyResult (List Nat)
  | [] => .ok []
  | b :: t =>
    if b = EDMI_DLE_IDEN then
      match t with
      | [] => .valueError "truncated escape (DLE at end)"
      | c :: t2 => (edmi_pre_process t2).map (fun r => ((c + 192) % 256) :: r)
    else
      (edmi_pre_process t).map (fun r => b :: r)

/-- One shift step of CRC-CCITT (poly 0x1021, MSB first), state kept below 2^16. -/
def crcBit (crc : Nat) : Nat :=
  if 0x8000 ≤ crc then Nat.xor (crc * 2) 0x1021 % 0x10000 else crc * 2 % 0x10000

/-- Folding one data byte into the CRC state. -/
def crcByte (crc b : Nat) : Nat :=
  crcBit (crcBit (crcBit (crcBit (crcBit (crcBit (crcBit (crcBit (Nat.xor crc (b * 256)))))))))

/-- binascii.crc_hqx: CRC-CCITT, poly 0x1021, MSB first, no final xor. -/
def crc_hqx (data : List Nat) (init : Nat) : Nat :=
  data.foldl crcByte (init % 0x10000)

/-- edmi_validate_crc (generics.py lines 102-141).  The received CRC word is
mv[-3] * 256 + mv[-2]; on memoryview bytes this equals the shift-or of the
source. -/
def edmi_validate_crc (frame : List Nat) : Nat :=
  let n := frame.length
  if n < 4 then ERR_RESPONSE_WRONG_LENGTH
  else if frame.getD 0 0 ≠ EDMI_STX_IDEN ∨ frame.getD (n - 1) 0 ≠ EDMI_ETX_IDEN then
    ERR_RESPONSE_WRONG_LENGTH
  else
    let data := frame.take (n - 3)
    let recv := frame.getD (n - 3) 0 * 256 + frame.getD (n - 2) 0
    if crc_hqx data 0 ≠ recv then ERR_RESPONSE_CRC_ERROR else ERR_NONE

/-- edmi_begin_init_packet (generics.py lines 143-184) for the case of no
command extension: STX, E frame marker, serial u32 BE, fixed client serial,
command byte. -/
def edmi_begin_init_packet (serial : Nat) (command : Nat) : List Nat :=
  EDMI_STX_IDEN :: EDMI_E_FRAME_IDEN :: u32be serial ++ EDMI_CLIENT_SERIAL ++ [command % 256]

/-- edmi_end_init_packet (generics.py lines 187-212): append the big-endian
CRC of the packet, stuff, append ETX. -/
def edmi_end_init_packet (packet : List Nat) : PyResult (List Nat) :=
  let crc := crc_hqx packet 0
  let withCrc := packet ++ [crc / 256 % 256, crc % 256]
  (edmi_post_process withCrc).map (fun s => s ++ [EDMI_ETX_IDEN])

/-- edmi_create_read_registers_packet (read_registers_frame.py lines 48-72):
base header, sentinel 0x0000FFF1, one u32 BE address per register. -/
def edmi_create_read_registers_packet (serial : Nat) (regs : List Nat) : PyResult (List Nat) :=
  edmi_end_init_packet
    (edmi_begin_init_packet serial 0x4D ++ u32be EDMI_MULTI_ERR_IDEN ++ regs.flatMap (fun a => u32be (a % 2 ^ 32)))

/-- Wire codes of EDMI_TYPE (ASCII letters, edmi_enums.py). -/
def T_STRING : Nat := 0x41

def T_BOOLEAN : Nat := 0x42

def T_BYTE : Nat := 0x43

def T_DOUBLE : Nat := 0x44

def T_EFA_STRING : Nat := 0x45

def T_FLOAT : Nat := 0x46

def T_STRING_LONG : Nat := 0x47

def T_HEX_SHORT : Nat := 0x48

def T_SHORT : Nat := 0x49

def T_VARIABLE_SPACE : Nat := 0x4A

def T_ERROR_STRING : Nat := 0x4B

def T_LONG : Nat := 0x4C

def T_SERIAL_NUMBER : Nat := 0x4D

def T_NONE_TYPE : Nat := 0x4E

def T_FLOAT_ENERGY : Nat := 0x4F

def T_POWER_FACTOR : Nat := 0x50

def T_TIME : Nat := 0x51

def T_DATE : Nat := 0x52

def T_SPECIAL : Nat := 0x53

def T_DATE_TIME : Nat := 0x54

def T_DOUBLE_ENERGY : Nat := 0x55

def T_LONG_LONG : Nat := 0x56

def T_WAVEFORM : Nat := 0x57

def T_HEX_LONG : Nat := 0x58

def T_REGISTER_NUMBER_HEX_LONG : Nat := 0x5A

/-- Codes for which the EDMI_TYPE IntEnum conversion succeeds. -/
def EDMI_TYPE_CODES : List Nat :=
  [T_STRING, T_BOOLEAN, T_BYTE, T_DOUBLE, T_EFA_STRING, T_FLOAT, T_STRING_LONG,
   T_HEX_SHORT, T_SHORT, T_VARIABLE_SPACE, T_ERROR_STRING, T_LONG, T_SERIAL_NUMBER,
   T_NONE_TYPE, T_FLOAT_ENERGY, T_POWER_FACTOR, T_TIME, T_DATE, T_SPECIAL,
   T_DATE_TIME, T_DOUBLE_ENERGY, T_LONG_LONG, T_WAVEFORM, T_HEX_LONG,
   T_REGISTER_NUMBER_HEX_LONG]

def MAX_VALUE_LENGTH : Nat := 25

/-- Exact value denoted by an IEEE-754 bit pattern. -/
inductive FloatVal where
  | finite (q : Rat)
  | inf (neg : Bool)
  | nan
  deriving DecidableEq

/-- Exact decoding of a big-endian IEEE-754 binary32 bit pattern; the finite
value of sign s, biased exponent e and fraction m is
(-1)^s * (2^23 + m) * 2^e / 2^150 (m * 2 / 2^150 when subnormal), written
with mkRat so that it computes. -/
def decodeF32 (bits : Nat) : FloatVal :=
  let s := bits / 2 ^ 31 % 2
  let e := bits / 2 ^ 23 % 2 ^ 8
  let m := bits % 2 ^ 23
  let sgn : Int := if s = 1 then -1 else 1
  if e = 255 then (if m = 0 then .inf (s = 1) else .nan)
  else if e = 0 then .finite (mkRat (sgn * (m * 2 : Nat)) (2 ^ 150))
  else .finite (mkRat (sgn * ((2 ^ 23 + m) * 2 ^ e : Nat)) (2 ^ 150))

/-- Exact decoding of a big-endian IEEE-754 binary64 bit pattern. -/
def decodeF64 (bits : Nat) : FloatVal :=
  let s := bits / 2 ^ 63 % 2
  let e := bits / 2 ^ 52 % 2 ^ 11
  let m := bits % 2 ^ 52
  let sgn : Int := if s = 1 then -1 else 1
  if e = 2047 then (if m = 0 then .inf (s = 1) else .nan)
  else if e = 0 then .finite (mkRat (sgn * (m * 2 : Nat)) (2 ^ 1075))
  else .finite (mkRat (sgn * ((2 ^ 52 + m) * 2 ^ e : Nat)) (2 ^ 1075))

/-- EDMIDateTime dataclass; anonymous constructors below list the fields in
declaration order Year, Month, Day, Hour, Minute, Second, IsNull. -/
structure EDMIDateTime where
  Year : Nat
  Month : Nat
  Day : Nat
  Hour : Nat
  Minute : Nat
  Second : Nat
  IsNull : Bool
  deriving DecidableEq

/-- Decoded register or profile field value (tagged union over the wire types);
strings are kept as their ASCII byte lists. -/
inductive EDMIValue where
  | int (i : Int)
  | float (v : FloatVal)
  | str (bytes : List Nat)
  | date (day month year : Nat)
  | time (hour minute second : Nat)
  | datetime (day month year hour minute second : Nat)
  | dtval (dt : EDMIDateTime)
  deriving DecidableEq

/-- Model of bytes.decode with the ascii codec in strict mode: fails on any
byte at or above 128. -/
def pyAsciiDecode (l : List Nat) : Option (List Nat) :=
  if l.all (fun b => b < 128) then some l else none

structure EDMIRegister where
  Name : String
  Address : Nat
  TypeCode : Nat
  ValueLen : Nat
  ErrorCode : Option Nat
  Value : Option EDMIValue
  deriving DecidableEq

/-- Value dispatch of read_registers_frame.py (_SPECIAL_PARSERS and
_NUMERIC_UNPACKERS feeding _parse_value): given the type code and the
value-length slice of the payload, produce the decoded value; none models a
raised exception (index or struct length error, non-ASCII byte). -/
def x_parse_value (regType : Nat) (chunk : List Nat) : Option EDMIValue :=
  if regType = T_BYTE ∨ regType = T_BOOLEAN then
    (chunk.get? 0).map .int
  else if regType = T_DATE then
    match chunk.get? 0, chunk.get? 1, chunk.get? 2 with
    | some d, some m, some y => some (.date d m y)
    | _, _, _ => none
  else if regType = T_TIME then
    match chunk.get? 0, chunk.get? 1, chunk.get? 2 with
    | some h, some m, some s => some (.time h m s)
    | _, _, _ => none
  else if regType = T_DATE_TIME then
    match chunk.get? 0, chunk.get? 1, chunk.get? 2, chunk.get? 3, chunk.get? 4, chunk.get? 5 with
    | some d, some mo, some y, some h, some mi, some s => some (.datetime d mo y h mi s)
    | _, _, _, _, _, _ => none
  else if regType = T_SERIAL_NUMBER then
    if chunk.length < 10 then none
    else (pyAsciiDecode (chunk.take 9)).map .str
  else if regType = T_ERROR_STRING then
    (pyAsciiDecode (chunk.take 16)).map .str
  else if regType = T_STRING ∨ regType = T_STRING_LONG ∨ regType = T_EFA_STRING then
    (pyAsciiDecode (chunk.takeWhile (fun b => b ≠ 0))).map .str
  else if regType = T_DOUBLE ∨ regType = T_DOUBLE_ENERGY then
    if chunk.length = 8 then some (.float (decodeF64 (beNat chunk))) else none
  else if regType = T_FLOAT ∨ regType = T_FLOAT_ENERGY ∨ regType = T_POWER_FACTOR then
    if chunk.length = 4 then some (.float (decodeF32 (beNat chunk))) else none
  else if regType = T_SHORT then
    if chunk.length = 2 then some (.int (toSigned 16 (beNat chunk))) else none
  else if regType = T_HEX_SHORT then
    if chunk.length = 2 then some (.int (beNat chunk)) else none
  else if regType = T_LONG then
    if chunk.length = 4 then some (.int (toSigned 32 (beNat chunk))) else none
  else if regType = T_HEX_LONG ∨ regType = T_REGISTER_NUMBER_HEX_LONG then
    if chunk.length = 4 then some (.int (beNat chunk)) else none
  else if regType = T_LONG_LONG then
    if chunk.length = 8 then some (.int (toSigned 64 (beNat chunk))) else none
  else
    if chunk.length = 4 then some (.float (decodeF32 (beNat chunk))) else none

/-- Per-register loop of edmi_parse_read_registers_answer
(read_registers_frame.py lines 260-322).  mv is the whole unstuffed payload,
dataEnd its length minus 3 (CRC and ETX excluded), idx the cursor.  The
returned list is the caller list with in-place mutations applied so far;
none models an uncaught exception. -/
def parseRegsLoop (mv : List Nat) (dataEnd : Nat) :
    Nat → List EDMIRegister → List EDMIRegister → Option (List EDMIRegister × Nat)
  | _, [], done => some (done.reverse, ERR_NONE)
  | idx, reg :: rest, done =>
    match mv.get? idx with
    | none => none
    | some eb =>
      let reg1 : EDMIRegister := { reg with ErrorCode := some eb }
      let idx1 := idx + 1
      let vl := reg.ValueLen
      if eb = ERR_NONE then
        if reg.TypeCode = T_STRING ∨ reg.TypeCode = T_STRING_LONG ∨ reg.TypeCode = T_EFA_STRING then
          if dataEnd ≤ idx1 then some (done.reverse ++ reg1 :: rest, ERR_REQUEST_WRONG_LENGTH)
          else
            let scanLen := min vl (dataEnd - idx1)
            let chunk := (mv.drop idx1).take scanLen
            match chunk.findIdx? (fun b => b = 0) with
            | some nul =>
              match pyAsciiDecode (chunk.take nul) with
              | none => none
              | some s =>
                parseRegsLoop mv dataEnd (idx1 + nul + 1) rest ({ reg1 with Value := some (.str s) } :: done)
            | none =>
              if scanLen < vl then some (done.reverse ++ reg1 :: rest, ERR_REQUEST_WRONG_LENGTH)
              else
                match pyAsciiDecode chunk with
                | none => none
                | some s =>
                  parseRegsLoop mv dataEnd (idx1 + vl) rest ({ reg1 with Value := some (.str s) } :: done)
        else
          if dataEnd < idx1 + vl then some (done.reverse ++ reg1 :: rest, ERR_REQUEST_WRONG_LENGTH)
          else
            match x_parse_value reg.TypeCode ((mv.drop idx1).take vl) with
            | none => none
            | some v => parseRegsLoop mv dataEnd (idx1 + vl) rest ({ reg1 with Value := some v } :: done)
      else if eb = ERR_REGISTER_NOT_FOUND then
        parseRegsLoop mv dataEnd idx1 rest ({ reg1 with Value := none } :: done)
      else
        let reg2 : EDMIRegister := { reg1 with Value := none }
        if dataEnd < idx1 + vl then
          if eb ≤ ERR_MAX_CODE then some (done.reverse ++ reg2 :: rest, eb) else none
        else
          parseRegsLoop mv dataEnd idx1 rest (reg2 :: done)

/-- edmi_parse_read_registers_answer (read_registers_frame.py lines 235-322):
check the command byte at offset 12 and the sentinel at offsets 13..16, then
walk the per-register error bytes and value regions. -/
def edmi_parse_read_registers_answer (payload : List Nat) (regs : List EDMIRegister) :
    Option (List EDMIRegister × Nat) :=
  let n := payload.length
  if n < 13 then some (regs, ERR_REQUEST_WRONG_LENGTH)
  else if payload.getD 12 0 ≠ 0x4D then some (regs, ERR_REQUEST_RESPONSE_COMMAND_MISMATCH)
  else if beNat ((payload.drop 13).take 4) ≠ EDMI_MULTI_ERR_IDEN then
    some (regs, ERR_REQUEST_RESPONSE_COMMAND_MISMATCH)
  else parseRegsLoop payload (n - 3) 17 regs []

/-- Model of _read_cstring (read_profile_frame.py lines 540-554); returns the
decoded bytes, the new cursor and the error code; none models a raised
UnicodeDecodeError. -/
def x_read_cstring (mv : List Nat) (idx maxLen : Nat) : Option (List Nat × Nat × Nat) :=
  let remaining := mv.length - idx
  if remaining = 0 then some ([], idx, ERR_REQUEST_WRONG_LENGTH)
  else
    let scanLen := min maxLen remaining
    let chunk := (mv.drop idx).take scanLen
    match chunk.findIdx? (fun b => b = 0) with
    | some pos => (pyAsciiDecode (chunk.take pos)).map (fun s => (s, idx + pos + 1, ERR_NONE))
    | none =>
      if remaining < maxLen then some ([], idx, ERR_REQUEST_WRONG_LENGTH)
      else (pyAsciiDecode chunk).map (fun s => (s, idx + maxLen, ERR_NONE))

/-- Model of _read_fixed_string (read_profile_frame.py lines 557-563). -/
def x_read_fixed_string (mv : List Nat) (idx size : Nat) : Option (List Nat × Nat × Nat) :=
  if mv.length < idx + size then some ([], idx, ERR_REQUEST_WRONG_LENGTH)
  else (pyAsciiDecode ((mv.drop idx).take size)).map (fun s => (s, idx + size, ERR_NONE))

/-- Model of _read_value (read_profile_frame.py lines 566-662): decode one
profile field of the given type code at the cursor.  The first component is
the decoded value (none when the source returns None). -/
def x_read_value (mv : List Nat) (idx : Nat) (vtype : Nat) : Option (Option EDMIValue × Nat × Nat) :=
  if vtype ∉ EDMI_TYPE_CODES then some (none, idx, ERR_UNIMPLEMENTED_DATA_TYPE)
  else if vtype = T_BYTE ∨ vtype = T_BOOLEAN then
    if mv.length < idx + 1 then some (none, idx, ERR_REQUEST_WRONG_LENGTH)
    else some (some (.int (mv.getD idx 0)), idx + 1, ERR_NONE)
  else if vtype = T_STRING ∨ vtype = T_STRING_LONG ∨ vtype = T_EFA_STRING then
    (x_read_cstring mv idx MAX_VALUE_LENGTH).map (fun r => (some (.str r.1), r.2.1, r.2.2))
  else if vtype = T_ERROR_STRING then
    (x_read_fixed_string mv idx 16).map (fun r => (some (.str r.1), r.2.1, r.2.2))
  else if vtype = T_SHORT then
    if mv.length < idx + 2 then some (none, idx, ERR_REQUEST_WRONG_LENGTH)
    else some (some (.int (toSigned 16 (beNat ((mv.drop idx).take 2)))), idx + 2, ERR_NONE)
  else if vtype = T_HEX_SHORT then
    if mv.length < idx + 2 then some (none, idx, ERR_REQUEST_WRONG_LENGTH)
    else some (some (.int (beNat ((mv.drop idx).take 2))), idx + 2, ERR_NONE)
  else if vtype = T_LONG then
    if mv.length < idx + 4 then some (none, idx, ERR_REQUEST_WRONG_LENGTH)
    else some (some (.int (toSigned 32 (beNat ((mv.drop idx).take 4)))), idx + 4, ERR_NONE)
  else if vtype = T_HEX_LONG ∨ vtype = T_REGISTER_NUMBER_HEX_LONG then
    if mv.length < idx + 4 then some (none, idx, ERR_REQUEST_WRONG_LENGTH)
    else some (some (.int (beNat ((mv.drop idx).take 4))), idx + 4, ERR_NONE)
  else if vtype = T_LONG_LONG then
    if mv.length < idx + 8 then some (none, idx, ERR_REQUEST_WRONG_LENGTH)
    else some (some (.int (toSigned 64 (beNat ((mv.drop idx).take 8)))), idx + 8, ERR_NONE)
  else if vtype = T_FLOAT ∨ vtype = T_POWER_FACTOR then
    if mv.length < idx + 4 then some (none, idx, ERR_REQUEST_WRONG_LENGTH)
    else some (some (.float (decodeF32 (beNat ((mv.drop idx).take 4)))), idx + 4, ERR_NONE)
  else if vtype = T_FLOAT_ENERGY then
    if mv.length < idx + 4 then some (none, idx, ERR_REQUEST_WRONG_LENGTH)
    else some (some (.int (toSigned 32 (beNat ((mv.drop idx).take 4)))), idx + 4, ERR_NONE)
  else if vtype = T_DOUBLE then
    if mv.length < idx + 8 then some (none, idx, ERR_REQUEST_WRONG_LENGTH)
    else some (some (.float (decodeF64 (beNat ((mv.drop idx).take 8)))), idx + 8, ERR_NONE)
  else if vtype = T_DOUBLE_ENERGY then
    if mv.length < idx + 8 then some (none, idx, ERR_REQUEST_WRONG_LENGTH)
    else some (some (.int (toSigned 64 (beNat ((mv.drop idx).take 8)))), idx + 8, ERR_NONE)
  else if vtype = T_DATE then
    if mv.length < idx + 3 then some (none, idx, ERR_REQUEST_WRONG_LENGTH)
    else
      some (some (.dtval ⟨mv.getD (idx + 2) 0, mv.getD (idx + 1) 0, mv.getD idx 0, 0, 0, 0, false⟩), idx + 3, ERR_NONE)
  else if vtype = T_TIME then
    if mv.length < idx + 3 then some (none, idx, ERR_REQUEST_WRONG_LENGTH)
    else
      some (some (.dtval ⟨0, 0, 0, mv.getD idx 0, mv.getD (idx + 1) 0, mv.getD (idx + 2) 0, false⟩), idx + 3, ERR_NONE)
  else if vtype = T_DATE_TIME then
    if mv.length < idx + 6 then some (none, idx, ERR_REQUEST_WRONG_LENGTH)
    else
      some (some (.dtval ⟨mv.getD (idx + 2) 0, mv.getD (idx + 1) 0, mv.getD idx 0,
        mv.getD (idx + 3) 0, mv.getD (idx + 4) 0, mv.getD (idx + 5) 0, false⟩), idx + 6, ERR_NONE)
  else
    some (none, idx, ERR_UNIMPLEMENTED_DATA_TYPE)

def SURVEY_LS01 : Nat := 0x0305

def SURVEY_LS03 : Nat := 0x0345

/-- Cache of learned per-read limits, keyed by (survey, record size, channels
count) as in media.py (_profile_read_limit_cache). -/
def LimitCache : Type := List ((Nat × Nat × Nat) × Nat)

def cacheGet (cache : LimitCache) (key : Nat × Nat × Nat) : Option Nat :=
  (cache.find? (fun p => p.1 = key)).map (fun p => p.2)

def cacheSet (cache : LimitCache) (key : Nat × Nat × Nat) (v : Nat) : LimitCache :=
  (key, v) :: cache.filter (fun p => p.1 ≠ key)

/-- Initial per-read limit of _read_records (media.py lines 508-518): survey
heuristic (LS01 59, LS03 288, else max 1 (ceil (86400 / interval)) when the
interval is positive, else 48), then capped by a truthy cached limit.  The
interval is the LONG register value and may be non-positive. -/
def initial_per_read_limit (survey : Nat) (interval : Int) (cached : Option Nat) : Nat :=
  let base :=
    if survey = SURVEY_LS01 then 59
    else if survey = SURVEY_LS03 then 288
    else if 0 < interval then max 1 (((86400 + interval - 1) / interval).toNat)
    else 48
  match cached with
  | some c => if c ≠ 0 then min base c else base
  | none => base

/-- The while loop of _read_records (media.py lines 526-602), with the
transport and response parser abstracted by resp: a READ issued at a start
record for a chunk of records comes back reporting resp start chunk records
and resp start chunk * channels fields.  Returns the final cache and the
returned error code. -/
def readRecordsLoop (resp : Nat → Nat → Nat) (channels : Nat) (key : Nat × Nat × Nat) :
    Nat → Nat → Nat → LimitCache → LimitCache × Nat
  | remaining, nextStart, limit, cache =>
    if h : remaining = 0 then (cache, ERR_NONE)
    else
      let chunk := min remaining limit
      let rn := resp nextStart chunk
      let limit1 := if 0 < rn ∧ rn < chunk then min limit rn else limit
      let cache1 := if 0 < rn ∧ rn < chunk then cacheSet cache key limit1 else cache
      if channels = 0 then (cache1, ERR_REQUEST_WRONG_LENGTH)
      else
        match rn * channels / channels with
        | 0 => (cache1, ERR_RESPONSE_WRONG_LENGTH)
        | k + 1 =>
          readRecordsLoop resp channels key (remaining - (k + 1)) (nextStart + (k + 1)) limit1 cache1
  termination_by remaining _ _ _ => remaining
  decreasing_by omega

/-- The _read_records closure (media.py lines 491-602): compute the initial
per-read limit from the survey heuristic and the cache, then run the chunked
READ loop. -/
def read_records (resp : Nat → Nat → Nat) (survey recordSize channels : Nat) (interval : Int)
    (cache : LimitCache) (startRecord count : Nat) : LimitCache × Nat :=
  let key := (survey, recordSize, channels)
  let limit := initial_per_read_limit survey interval (cacheGet cache key)
  readRecordsLoop resp channels key count startRecord limit cache

/-- Number of records requested by the first READ that read_records issues
(the first value of chunk in the loop). -/
def first_read_count (survey : Nat) (interval : Int) (cache : LimitCache)
    (recordSize channels count : Nat) : Nat :=
  min count (initial_per_read_limit survey interval (cacheGet cache (survey, recordSize, channels)))

/-- Outcomes of the sub-operations of edmi_read_profile, abstracting the
transport: the error code produced by each parsing or population step, in
program order (media.py lines 317-618).  chanErrs pairs the per-channel
register-parse error with the channel-info population error. -/
structure ProfileOracle where
  infoRegsErr : Nat
  setInfoErr : Nat
  fileInfoErr : Nat
  chanErrs : List (Nat × Nat)
  searchFromErr : Nat
  searchToErr : Nat
  readErr : Nat
  deriving DecidableEq

/-- Progress markers and final error of one edmi_read_profile run. -/
structure ProfileFlowResult where
  reachedFileInfo : Bool
  reachedSearch : Bool
  reachedRead : Bool
  finalErr : Nat
  deriving DecidableEq

/-- The first_err recording pattern of media.py: if err is non-NONE and
first_err is NONE, set first_err to err. -/
def recordFirst (first err : Nat) : Nat :=
  if err ≠ ERR_NONE ∧ first = ERR_NONE then err else first

/-- Control flow of edmi_read_profile after FILE_INFO parsing succeeded
(media.py lines 391-633): channel descriptor failures and SEARCH failures
are recorded into first_err and execution continues; a READ failure returns
first_err when set, else the READ error; on success the final error is
first_err (NONE if never set). -/
def readProfileFlowRest (o : ProfileOracle) (first0 : Nat) : ProfileFlowResult :=
  let first1 := o.chanErrs.foldl (fun f pe => recordFirst (recordFirst f pe.1) pe.2) first0
  let first2 := recordFirst first1 o.searchFromErr
  let first3 := recordFirst first2 o.searchToErr
  if o.readErr ≠ ERR_NONE then
    ⟨true, true, true, if first3 ≠ ERR_NONE then first3 else o.readErr⟩
  else
    ⟨true, true, true, first3⟩

/-- Control flow of edmi_read_profile (media.py lines 317-633) over the
oracle of sub-operation outcomes: the info-register parse error is recorded
into first_err; a REGISTER_NOT_FOUND from populating FileInfo returns at
once with that error; any FILE_INFO parse failure returns at once with that
error before SEARCH; otherwise the run continues to the chunked READ. -/
def edmi_read_profile_flow (o : ProfileOracle) : ProfileFlowResult :=
  let first0 := recordFirst ERR_NONE o.infoRegsErr
  if o.setInfoErr ≠ ERR_NONE then
    let first1 := recordFirst first0 o.setInfoErr
    if o.setInfoErr = ERR_REGISTER_NOT_FOUND then
      ⟨false, false, false, o.setInfoErr⟩
    else if o.fileInfoErr ≠ ERR_NONE then
      ⟨true, false, false, o.fileInfoErr⟩
    else
      readProfileFlowRest o first1
  else if o.fileInfoErr ≠ ERR_NONE then
    ⟨true, false, false, o.fileInfoErr⟩
  else
    readProfileFlowRest o first0

/-- First non-NONE code of a list of error codes, NONE when there is none. -/
def firstErrOf (l : List Nat) : Nat :=
  match l.find? (fun e => e ≠ ERR_NONE) with
  | some e => e
  | none => ERR_NONE

/-- All error codes recorded into first_err during a full run, in order. -/
def recordedErrs (o : ProfileOracle) : List Nat :=
  o.infoRegsErr :: o.setInfoErr :: o.chanErrs.flatMap (fun pe => [pe.1, pe.2])
    ++ [o.searchFromErr, o.searchToErr]

/-- Register descriptor holding an IEEE binary32 value (value length 4), as
produced by the static catalog for the voltage registers. -/
def floatReg (name : String) (addr : Nat) : EDMIRegister :=
  ⟨name, addr, T_FLOAT, 4, none, none⟩

/-- Unstuffed response header: STX, E frame marker, meter serial u32 BE,
client serial. -/
def respHeader (serial : Nat) : List Nat :=
  EDMI_STX_IDEN :: EDMI_E_FRAME_IDEN :: u32be serial ++ EDMI_CLIENT_SERIAL

/-- Unstuffed READ_REGISTER_EXT response payload of the three-register
example of the specification: command echo, sentinel, then
NONE, f32 230.0, REGISTER_NOT_FOUND, NONE, f32 229.25, followed by the CRC
word and ETX (the parser does not validate these trailing three bytes). -/
def exampleReadRegsPayload : List Nat :=
  respHeader 251308613 ++ [0x4D, 0x00, 0x00, 0xFF, 0xF1] ++
    [0x00, 0x43, 0x66, 0x00, 0x00, 0x03, 0x00, 0x43, 0x65, 0x40, 0x00] ++
    [0xAA, 0xBB, EDMI_ETX_IDEN]

/-- The three registers of the example: two present voltages and a missing
address. -/
def exampleReadRegs : List EDMIRegister :=
  [floatReg "PHASE_A_VOLTAGE" 0xE000, floatReg "MISSING" 0xDEAD, floatReg "PHASE_C_VOLTAGE" 0xE002]

/-- Same well-formed payload but carrying meter serial 1 where the request
was sent with serial 2: only the first of the three example registers. -/
def mismatchedSerialPayload : List Nat :=
  respHeader 1 ++ [0x4D, 0x00, 0x00, 0xFF, 0xF1] ++
    [0x00, 0x43, 0x66, 0x00, 0x00] ++ [0xAA, 0xBB, EDMI_ETX_IDEN]

/-- Frame built by the driver for a READ_REGISTER_EXT request on the LS01
interval register 0x0305F014; the address contains an ETX byte, so the
emitted frame carries a DLE escape in its interior. -/
def intervalRequestFrame : List Nat :=
  [2, 69, 0, 0, 0, 0, 1, 43, 22, 104, 255, 255, 77, 0, 0, 255, 241, 16, 67, 5, 240, 20, 164, 182, 3]

/-- Oracle of a run whose FILE_INFO parse fails with REQUEST_WRONG_LENGTH
while every other step succeeds. -/
def fileInfoFailOracle : ProfileOracle :=
  ⟨ERR_NONE, ERR_NONE, ERR_REQUEST_WRONG_LENGTH, [], ERR_NONE, ERR_NONE, ERR_NONE⟩

/-- Oracle of a run whose from-SEARCH fails with REQUEST_WRONG_LENGTH while
every other step succeeds. -/
def searchFailOracle : ProfileOracle :=
  ⟨ERR_NONE, ERR_NONE, ERR_NONE, [(ERR_NONE, ERR_NONE)], ERR_REQUEST_WRONG_LENGTH, ERR_NONE, ERR_NONE⟩

theorem pyResult_map_map {α β γ : Type} (f : β → γ) (g : α → β) (x : PyResult α) :
    (x.map g).map f = x.map (fun a => f (g a)) := by
  cases x <;> rfl

/-- Plain bytes are copied through the unstuffer. -/
theorem pre_process_cons_ne (b : Nat) (t : List Nat) (h : b ≠ EDMI_DLE_IDEN) :
    edmi_pre_process (b :: t) = (edmi_pre_process t).map (fun r => b :: r) := by
  cases t <;> simp [edmi_pre_process, h]

/-- A DLE consumes the next byte and emits its corrected value. -/
theorem pre_process_dle_cons (c : Nat) (t2 : List Nat) :
    edmi_pre_process (EDMI_DLE_IDEN :: c :: t2) =
      (edmi_pre_process t2).map (fun r => (c + 192) % 256 :: r) := by
  simp [edmi_pre_process]

/-- Unstuffing a stuffed run followed by any suffix recovers the run and
continues with the suffix, provided the run is made of bytes. -/
theorem pre_process_stuffTail_append (l k : List Nat) (hl : ∀ b ∈ l, b < 256) :
    edmi_pre_process (stuffTail l ++ k) = (edmi_pre_process k).map (fun r => l ++ r) := by
  induction l with
  | nil =>
    cases hk : edmi_pre_process k <;> simp [stuffTail, hk, PyResult.map]
  | cons b t ih =>
    have hb : b < 256 := hl b (List.mem_cons_self b t)
    have ht : ∀ x ∈ t, x < 256 := fun x hx => hl x (List.mem_cons_of_mem b hx)
    by_cases hbe : b ∈ ESCAPE_SET
    · have hstep : ((b + EDMI_IDEN_CORRECTOR) % 256 + 192) % 256 = b := by
        simp only [EDMI_IDEN_CORRECTOR]
        omega
      simp only [stuffTail, if_pos hbe, List.cons_append]
      rw [pre_process_dle_cons, ih ht, pyResult_map_map]
      rw [show (fun r => b :: (t ++ r)) =
          (fun r : List Nat => ((b + EDMI_IDEN_CORRECTOR) % 256 + 192) % 256 :: (t ++ r)) from by
        rw [hstep]]
    · have hbne : b ≠ EDMI_DLE_IDEN := by
        intro h
        exact hbe (by rw [h]; simp [ESCAPE_SET])
      simp only [stuffTail, if_neg hbe, List.cons_append]
      rw [pre_process_cons_ne b _ hbne, ih ht, pyResult_map_map]

/-- C1.  Byte-stuffing round-trip: for every byte string starting with STX,
unstuffing the stuffed form returns the original string exactly, i.e.
edmi_pre_process (edmi_post_process B) = B when the first byte of B is STX
0x02 and B consists of bytes. -/
theorem stuff_unstuff_roundtrip (rest : List Nat) (hb : ∀ b ∈ rest, b < 256) :
    (edmi_post_process (EDMI_STX_IDEN :: rest)).bind edmi_pre_process =
      .ok (EDMI_STX_IDEN :: rest) := by
  have hpost : edmi_post_process (EDMI_STX_IDEN :: rest) =
      .ok (EDMI_STX_IDEN :: stuffTail rest) := by
    simp [edmi_post_process]
  rw [hpost]
  show edmi_pre_process (EDMI_STX_IDEN :: stuffTail rest) = .ok (EDMI_STX_IDEN :: rest)
  rw [pre_process_cons_ne EDMI_STX_IDEN _ (by decide),
    show stuffTail rest = stuffTail rest ++ [] from (List.append_nil _).symm,
    pre_process_stuffTail_append rest [] hb]
  simp [edmi_pre_process, PyResult.map]

/-- Witness for C1: round trip of a body containing every escape-set byte. -/
theorem stuff_unstuff_roundtrip_witness :
    (edmi_post_process (EDMI_STX_IDEN :: [0x02, 0x03, 0x10, 0x11, 0x13, 0x41, 0xD0])).bind
      edmi_pre_process = .ok (EDMI_STX_IDEN :: [0x02, 0x03, 0x10, 0x11, 0x13, 0x41, 0xD0]) :=
  stuff_unstuff_roundtrip [0x02, 0x03, 0x10, 0x11, 0x13, 0x41, 0xD0] (by decide)

/-- Counterexample for C9: a frame ending in an unconsumed DLE makes
edmi_pre_process raise ValueError; no EDMI_ERROR_CODE value (in particular
not RESPONSE_WRONG_LENGTH 0x11) is produced, since the function raises
instead of returning. -/
theorem unstuff_trailing_dle_cex :
    edmi_pre_process [EDMI_STX_IDEN, EDMI_DLE_IDEN] =
      .valueError "truncated escape (DLE at end)" := by decide

/-- C9 amended: unstuffing a received byte sequence that ends with an
unconsumed DLE fails, but by raising ValueError (message truncated escape),
not by returning the typed error RESPONSE_WRONG_LENGTH. -/
theorem unstuff_trailing_dle (xs : List Nat) (hx : EDMI_DLE_IDEN ∉ xs) :
    edmi_pre_process (xs ++ [EDMI_DLE_IDEN]) =
      .valueError "truncated escape (DLE at end)" := by
  induction xs with
  | nil => decide
  | cons b t ih =>
    have hbne : b ≠ EDMI_DLE_IDEN := fun h => hx (h ▸ List.mem_cons_self b t)
    have htne : EDMI_DLE_IDEN ∉ t := fun h => hx (List.mem_cons_of_mem b h)
    rw [List.cons_append, pre_process_cons_ne b _ hbne, ih htne]
    rfl

/-- Witness for C9 amended at a concrete prefix. -/
theorem unstuff_trailing_dle_witness :
    edmi_pre_process ([0x02, 0x41, 0x42] ++ [EDMI_DLE_IDEN]) =
      .valueError "truncated escape (DLE at end)" :=
  unstuff_trailing_dle [0x02, 0x41, 0x42] (by decide)

theorem crcBit_lt (x : Nat) : crcBit x < 0x10000 := by
  unfold crcBit
  split <;> exact Nat.mod_lt _ (by norm_num)

theorem foldl_crcByte_lt (data : List Nat) :
    ∀ acc, acc < 0x10000 → data.foldl crcByte acc < 0x10000 := by
  induction data with
  | nil => intro acc h; simpa using h
  | cons b t ih =>
    intro acc h
    rw [List.foldl_cons]
    exact ih (crcByte acc b) (by unfold crcByte; exact crcBit_lt _)

theorem crc_hqx_lt (data : List Nat) (init : Nat) : crc_hqx data init < 0x10000 := by
  unfold crc_hqx
  exact foldl_crcByte_lt data _ (Nat.mod_lt _ (by norm_num))

/-- Validation succeeds on a frame assembled as STX, body, matching CRC word,
ETX. -/
theorem validate_crc_structure (body : List Nat) (hi lo : Nat)
    (hcrc : crc_hqx (EDMI_STX_IDEN :: body) 0 = hi * 256 + lo) :
    edmi_validate_crc ((EDMI_STX_IDEN :: body) ++ [hi, lo, EDMI_ETX_IDEN]) = ERR_NONE := by
  have hlen : ((EDMI_STX_IDEN :: body) ++ [hi, lo, EDMI_ETX_IDEN]).length = body.length + 4 := by
    simp
  have h0 : ((EDMI_STX_IDEN :: body) ++ [hi, lo, EDMI_ETX_IDEN]).getD 0 0 = EDMI_STX_IDEN := by
    rfl
  have hlast : ((EDMI_STX_IDEN :: body) ++ [hi, lo, EDMI_ETX_IDEN]).getD (body.length + 3) 0 =
      EDMI_ETX_IDEN := by
    rw [List.getD_append_right _ _ _ _ (by simp)]
    simp
  have hgd1 : ((EDMI_STX_IDEN :: body) ++ [hi, lo, EDMI_ETX_IDEN]).getD (body.length + 1) 0 = hi := by
    rw [List.getD_append_right _ _ _ _ (by simp)]
    simp
  have hgd2 : ((EDMI_STX_IDEN :: body) ++ [hi, lo, EDMI_ETX_IDEN]).getD (body.length + 2) 0 = lo := by
    rw [List.getD_append_right _ _ _ _ (by simp)]
    simp
  have htake : ((EDMI_STX_IDEN :: body) ++ [hi, lo, EDMI_ETX_IDEN]).take (body.length + 1) =
      EDMI_STX_IDEN :: body := by
    rw [show body.length + 1 = (EDMI_STX_IDEN :: body).length from by simp, List.take_left]
  unfold edmi_validate_crc
  rw [hlen]
  rw [if_neg (by omega : ¬ body.length + 4 < 4)]
  rw [show body.length + 4 - 1 = body.length + 3 from by omega, h0, hlast]
  rw [if_neg (by decide : ¬ (EDMI_STX_IDEN ≠ EDMI_STX_IDEN ∨ EDMI_ETX_IDEN ≠ EDMI_ETX_IDEN))]
  rw [show body.length + 4 - 3 = body.length + 1 from by omega,
    show body.length + 4 - 2 = body.length + 2 from by omega,
    htake, hgd1, hgd2]
  simp [hcrc]

/-- C10.  Every frame the driver builds validates against its own checker:
for every byte string starting with STX, appending the CRC, stuffing,
appending ETX (edmi_end_init_packet) and then unstuffing (edmi_pre_process)
yields a frame on which edmi_validate_crc returns NONE. -/
theorem built_frame_validates (rest : List Nat) (hb : ∀ b ∈ rest, b < 256) :
    ((edmi_end_init_packet (EDMI_STX_IDEN :: rest)).bind edmi_pre_process).map edmi_validate_crc
      = .ok ERR_NONE := by
  have hpost : edmi_post_process ((EDMI_STX_IDEN :: rest) ++
      [crc_hqx (EDMI_STX_IDEN :: rest) 0 / 256 % 256, crc_hqx (EDMI_STX_IDEN :: rest) 0 % 256]) =
      .ok (EDMI_STX_IDEN :: stuffTail (rest ++
        [crc_hqx (EDMI_STX_IDEN :: rest) 0 / 256 % 256, crc_hqx (EDMI_STX_IDEN :: rest) 0 % 256])) := by
    rw [List.cons_append]
    simp [edmi_post_process]
  have hend : edmi_end_init_packet (EDMI_STX_IDEN :: rest) =
      .ok ((EDMI_STX_IDEN :: stuffTail (rest ++
        [crc_hqx (EDMI_STX_IDEN :: rest) 0 / 256 % 256, crc_hqx (EDMI_STX_IDEN :: rest) 0 % 256]))
        ++ [EDMI_ETX_IDEN]) :=
    calc edmi_end_init_packet (EDMI_STX_IDEN :: rest)
        = PyResult.map (fun s => s ++ [EDMI_ETX_IDEN]) (edmi_post_process ((EDMI_STX_IDEN :: rest) ++
            [crc_hqx (EDMI_STX_IDEN :: rest) 0 / 256 % 256,
             crc_hqx (EDMI_STX_IDEN :: rest) 0 % 256])) := rfl
      _ = _ := by rw [hpost]; rfl
  have hX : ∀ b ∈ rest ++
      [crc_hqx (EDMI_STX_IDEN :: rest) 0 / 256 % 256, crc_hqx (EDMI_STX_IDEN :: rest) 0 % 256],
      b < 256 := by
    intro b hb2
    rcases List.mem_append.mp hb2 with h | h
    · exact hb b h
    · simp only [List.mem_cons, List.mem_singleton] at h
      rcases h with rfl | rfl | h
      · exact Nat.mod_lt _ (by norm_num)
      · exact Nat.mod_lt _ (by norm_num)
      · simp at h
  have hpre : edmi_pre_process ((EDMI_STX_IDEN :: stuffTail (rest ++
      [crc_hqx (EDMI_STX_IDEN :: rest) 0 / 256 % 256, crc_hqx (EDMI_STX_IDEN :: rest) 0 % 256]))
      ++ [EDMI_ETX_IDEN]) =
      .ok (EDMI_STX_IDEN :: ((rest ++
        [crc_hqx (EDMI_STX_IDEN :: rest) 0 / 256 % 256, crc_hqx (EDMI_STX_IDEN :: rest) 0 % 256])
        ++ [EDMI_ETX_IDEN])) := by
    rw [List.cons_append, pre_process_cons_ne _ _ (by decide),
      pre_process_stuffTail_append _ _ hX,
      show edmi_pre_process [EDMI_ETX_IDEN] = .ok [EDMI_ETX_IDEN] from by decide]
    rfl
  rw [hend]
  show PyResult.map edmi_validate_crc (edmi_pre_process _) = _
  rw [hpre]
  show PyResult.ok (edmi_validate_crc _) = _
  have hridx : crc_hqx (EDMI_STX_IDEN :: rest) 0 =
      crc_hqx (EDMI_STX_IDEN :: rest) 0 / 256 % 256 * 256 +
        crc_hqx (EDMI_STX_IDEN :: rest) 0 % 256 := by
    have hc := crc_hqx_lt (EDMI_STX_IDEN :: rest) 0
    omega
  rw [show EDMI_STX_IDEN :: ((rest ++
      [crc_hqx (EDMI_STX_IDEN :: rest) 0 / 256 % 256, crc_hqx (EDMI_STX_IDEN :: rest) 0 % 256])
      ++ [EDMI_ETX_IDEN]) =
      (EDMI_STX_IDEN :: rest) ++
        [crc_hqx (EDMI_STX_IDEN :: rest) 0 / 256 % 256, crc_hqx (EDMI_STX_IDEN :: rest) 0 % 256,
         EDMI_ETX_IDEN] from by rw [List.append_assoc]; rfl]
  rw [validate_crc_structure rest _ _ hridx]

/-- Witness for C10 at a concrete packet. -/
theorem built_frame_validates_witness :
    ((edmi_end_init_packet (EDMI_STX_IDEN :: [0x45, 0x03])).bind edmi_pre_process).map
      edmi_validate_crc = .ok ERR_NONE :=
  built_frame_validates [0x45, 0x03] (by decide)

/-- Every byte emitted by the stuffing loop differs from STX, ETX, XON and
XOFF (the DLE escape marker itself does appear). -/
theorem stuffTail_no_frame_delims (l : List Nat) :
    ∀ b ∈ stuffTail l, b ≠ EDMI_STX_IDEN ∧ b ≠ EDMI_ETX_IDEN ∧
      b ≠ EDMI_XON_IDEN ∧ b ≠ EDMI_XOFF_IDEN := by
  induction l with
  | nil => simp [stuffTail]
  | cons c t ih =>
    intro b hbmem
    by_cases hce : c ∈ ESCAPE_SET
    · simp only [stuffTail, if_pos hce, List.mem_cons] at hbmem
      rcases hbmem with rfl | rfl | h
      · decide
      · simp only [ESCAPE_SET, List.mem_cons, List.mem_singleton] at hce
        rcases hce with rfl | rfl | rfl | rfl | rfl | h
        · decide
        · decide
        · decide
        · decide
        · decide
        · simp at h
      · exact ih b h
    · simp only [stuffTail, if_neg hce, List.mem_cons] at hbmem
      rcases hbmem with rfl | h
      · simp only [ESCAPE_SET, List.mem_cons, List.mem_singleton, not_or] at hce
        exact ⟨hce.1, hce.2.1, hce.2.2.1, hce.2.2.2.1⟩
      · exact ih b h

set_option maxRecDepth 8192 in
/-- Counterexample for C7: the frame the driver itself builds for a
READ_REGISTER_EXT request on the LS01 interval register carries the
escape-set byte DLE 0x10 at interior offset 17. -/
theorem escape_invariant_cex :
    edmi_create_read_registers_packet 0 [0x0305F014] = .ok intervalRequestFrame ∧
    intervalRequestFrame.getD 17 0 ∈ ESCAPE_SET ∧
    1 ≤ 17 ∧ 17 + 1 < intervalRequestFrame.length := by decide

/-- C7 amended: in every frame emitted by the frame builder, no byte at
offset at least 1 and before the trailing ETX equals STX, ETX, XON or XOFF;
only the escape marker DLE from the escape set may appear there. -/
theorem escape_invariant_amended (packet out : List Nat)
    (hok : edmi_end_init_packet packet = .ok out) (i : Nat) (h1 : 1 ≤ i)
    (h2 : i + 1 < out.length) :
    out.getD i 0 ≠ EDMI_STX_IDEN ∧ out.getD i 0 ≠ EDMI_ETX_IDEN ∧
      out.getD i 0 ≠ EDMI_XON_IDEN ∧ out.getD i 0 ≠ EDMI_XOFF_IDEN := by
  match packet, hok with
  | [], hok =>
    rw [show edmi_end_init_packet ([] : List Nat) =
        .valueError "packet must start with STX" from by decide] at hok
    exact PyResult.noConfusion hok
  | p :: t, hok =>
    by_cases hp : p = EDMI_STX_IDEN
    · subst hp
      have hpost : edmi_post_process ((EDMI_STX_IDEN :: t) ++
          [crc_hqx (EDMI_STX_IDEN :: t) 0 / 256 % 256, crc_hqx (EDMI_STX_IDEN :: t) 0 % 256]) =
          .ok (EDMI_STX_IDEN :: stuffTail (t ++
            [crc_hqx (EDMI_STX_IDEN :: t) 0 / 256 % 256, crc_hqx (EDMI_STX_IDEN :: t) 0 % 256])) := by
        rw [List.cons_append]
        simp [edmi_post_process]
      have hend : edmi_end_init_packet (EDMI_STX_IDEN :: t) =
          .ok ((EDMI_STX_IDEN :: stuffTail (t ++
            [crc_hqx (EDMI_STX_IDEN :: t) 0 / 256 % 256, crc_hqx (EDMI_STX_IDEN :: t) 0 % 256]))
            ++ [EDMI_ETX_IDEN]) :=
        calc edmi_end_init_packet (EDMI_STX_IDEN :: t)
            = PyResult.map (fun s => s ++ [EDMI_ETX_IDEN]) (edmi_post_process ((EDMI_STX_IDEN :: t) ++
                [crc_hqx (EDMI_STX_IDEN :: t) 0 / 256 % 256,
                 crc_hqx (EDMI_STX_IDEN :: t) 0 % 256])) := rfl
          _ = _ := by rw [hpost]; rfl
      rw [hok] at hend
      have hout : out = (EDMI_STX_IDEN :: stuffTail (t ++
          [crc_hqx (EDMI_STX_IDEN :: t) 0 / 256 % 256, crc_hqx (EDMI_STX_IDEN :: t) 0 % 256]))
          ++ [EDMI_ETX_IDEN] :=
        PyResult.ok.inj hend
      obtain ⟨j, rfl⟩ : ∃ j, i = j + 1 := ⟨i - 1, by omega⟩
      subst hout
      have hjlt : j < (stuffTail (t ++
          [crc_hqx (EDMI_STX_IDEN :: t) 0 / 256 % 256,
           crc_hqx (EDMI_STX_IDEN :: t) 0 % 256])).length := by
        simp only [List.cons_append, List.length_cons, List.length_append] at h2
        simp only [List.length_cons, List.length_nil] at h2
        omega
      rw [List.cons_append, List.getD_cons_succ, List.getD_append _ _ _ _ hjlt]
      have hmem : (stuffTail (t ++
          [crc_hqx (EDMI_STX_IDEN :: t) 0 / 256 % 256,
           crc_hqx (EDMI_STX_IDEN :: t) 0 % 256])).getD j 0 ∈ stuffTail (t ++
          [crc_hqx (EDMI_STX_IDEN :: t) 0 / 256 % 256,
           crc_hqx (EDMI_STX_IDEN :: t) 0 % 256]) := by
        rw [List.getD_eq_getElem _ _ hjlt]
        exact List.getElem_mem hjlt
      exact stuffTail_no_frame_delims _ _ hmem
    · exfalso
      have hbad : edmi_end_init_packet (p :: t) = .valueError "packet must start with STX" :=
        calc edmi_end_init_packet (p :: t)
            = PyResult.map (fun s => s ++ [EDMI_ETX_IDEN]) (edmi_post_process ((p :: t) ++
                [crc_hqx (p :: t) 0 / 256 % 256, crc_hqx (p :: t) 0 % 256])) := rfl
          _ = _ := by
            rw [List.cons_append, show edmi_post_process (p :: (t ++
              [crc_hqx (p :: t) 0 / 256 % 256, crc_hqx (p :: t) 0 % 256])) =
                .valueError "packet must start with STX" from by simp [edmi_post_process, hp]]
            rfl
      rw [hbad] at hok
      exact PyResult.noConfusion hok

/-- Witness for C7 amended: the frame built from the bare STX packet at
interior offset 1. -/
theorem escape_invariant_amended_witness :
    ([2, 32, 66, 3] : List Nat).getD 1 0 ≠ EDMI_STX_IDEN ∧
    ([2, 32, 66, 3] : List Nat).getD 1 0 ≠ EDMI_ETX_IDEN ∧
    ([2, 32, 66, 3] : List Nat).getD 1 0 ≠ EDMI_XON_IDEN ∧
    ([2, 32, 66, 3] : List Nat).getD 1 0 ≠ EDMI_XOFF_IDEN :=
  escape_invariant_amended [2] [2, 32, 66, 3] (by decide) 1 (by decide) (by decide)

set_option maxRecDepth 100000 in
/-- C2.  In a READ_REGISTER_EXT response, a register whose error byte is
REGISTER_NOT_FOUND 0x03 gets Value none and error 0x03, the cursor advances
only past the error byte itself, so every later register decodes from the
bytes immediately following it; the three-register example yields 230.0,
none, 229.25 in order and the parse returns NONE. -/
theorem register_not_found_mid_batch :
    (∀ mv dataEnd idx reg rest done, mv.get? idx = some ERR_REGISTER_NOT_FOUND →
      parseRegsLoop mv dataEnd idx (reg :: rest) done =
        parseRegsLoop mv dataEnd (idx + 1) rest
          ({ reg with ErrorCode := some ERR_REGISTER_NOT_FOUND, Value := none } :: done)) ∧
    edmi_parse_read_registers_answer exampleReadRegsPayload exampleReadRegs =
      some ([⟨"PHASE_A_VOLTAGE", 0xE000, T_FLOAT, 4, some ERR_NONE, some (.float (.finite 230))⟩,
             ⟨"MISSING", 0xDEAD, T_FLOAT, 4, some ERR_REGISTER_NOT_FOUND, none⟩,
             ⟨"PHASE_C_VOLTAGE", 0xE002, T_FLOAT, 4, some ERR_NONE, some (.float (.finite 229.25))⟩],
        ERR_NONE) := by
  constructor
  · intro mv dataEnd idx reg rest done hget
    simp only [parseRegsLoop, hget]
    rfl
  · rw [show (229.25 : Rat) = mkRat 917 4 from by norm_num [Rat.mkRat_eq_div]]
    decide

/-- Witness for C2 at a one-byte payload holding only the error byte. -/
theorem register_not_found_mid_batch_witness :
    parseRegsLoop [ERR_REGISTER_NOT_FOUND] 0 0 [floatReg "X" 0] [] =
      parseRegsLoop [ERR_REGISTER_NOT_FOUND] 0 1 []
        [{ floatReg "X" 0 with ErrorCode := some ERR_REGISTER_NOT_FOUND, Value := none }] :=
  register_not_found_mid_batch.1 [ERR_REGISTER_NOT_FOUND] 0 0 (floatReg "X" 0) [] [] (by decide)

set_option maxRecDepth 100000 in
/-- Counterexample for C3: a well-formed READ_REGISTER_EXT response whose
echoed meter serial field (offsets 2..5) is 1, for a request sent with
serial 2, is accepted by edmi_parse_read_registers_answer with NONE; no
REQUEST_RESPONSE_COMMAND_MISMATCH is produced because the parser never
inspects the serial field. -/
theorem serial_not_checked_cex :
    (mismatchedSerialPayload.drop 2).take 4 = [0, 0, 0, 1] ∧
    u32be 2 = [0, 0, 0, 2] ∧
    edmi_parse_read_registers_answer mismatchedSerialPayload [floatReg "PHASE_A_VOLTAGE" 0xE000] =
      some ([⟨"PHASE_A_VOLTAGE", 0xE000, T_FLOAT, 4, some ERR_NONE, some (.float (.finite 230))⟩],
        ERR_NONE) ∧
    ERR_NONE ≠ ERR_REQUEST_RESPONSE_COMMAND_MISMATCH := by decide

/-- The register loop reads the payload only at cursor positions, which stay
at or above the initial cursor; two payloads agreeing from offset 12 onward
drive it identically. -/
theorem parseRegsLoop_congr (mv1 mv2 : List Nat) (dataEnd : Nat)
    (hdrop : ∀ j, 12 ≤ j → mv1.drop j = mv2.drop j) :
    ∀ pending idx done, 12 ≤ idx →
      parseRegsLoop mv1 dataEnd idx pending done = parseRegsLoop mv2 dataEnd idx pending done := by
  intro pending
  induction pending with
  | nil => intro idx done _; rfl
  | cons reg rest ih =>
    intro idx done hidx
    have hget : mv1.get? idx = mv2.get? idx := by
      have hd : (mv1.drop idx).get? 0 = (mv2.drop idx).get? 0 := by rw [hdrop idx hidx]
      rwa [List.get?_drop, List.get?_drop, Nat.add_zero] at hd
    have hdrop1 : mv1.drop (idx + 1) = mv2.drop (idx + 1) := hdrop (idx + 1) (by omega)
    simp only [parseRegsLoop, hget, hdrop1]
    repeat' split
    any_goals rfl
    all_goals exact ih _ _ (by omega)

/-- C3 amended: the READ_REGISTER_EXT response parser never inspects the
first 12 payload bytes, which include the echoed meter serial at offsets
2..5; its verdict is unchanged under any replacement of that header, so a
response differing only in the meter serial is not rejected. -/
theorem parse_answer_ignores_serial (hd1 hd2 rest : List Nat) (regs : List EDMIRegister)
    (e1 : hd1.length = 12) (e2 : hd2.length = 12) :
    edmi_parse_read_registers_answer (hd1 ++ rest) regs =
      edmi_parse_read_registers_answer (hd2 ++ rest) regs := by
  have hlen : (hd1 ++ rest).length = (hd2 ++ rest).length := by simp [e1, e2]
  have hdrop : ∀ j, 12 ≤ j → (hd1 ++ rest).drop j = (hd2 ++ rest).drop j := by
    intro j hj
    obtain ⟨k, rfl⟩ : ∃ k, j = 12 + k := ⟨j - 12, by omega⟩
    rw [show (12 : Nat) + k = hd1.length + k from by omega, List.drop_append,
      show hd1.length + k = hd2.length + k from by omega, List.drop_append]
  have hg12 : (hd1 ++ rest).getD 12 0 = (hd2 ++ rest).getD 12 0 := by
    rw [List.getD_append_right _ _ _ _ (by omega), List.getD_append_right _ _ _ _ (by omega),
      e1, e2]
  have hd13 : (hd1 ++ rest).drop 13 = (hd2 ++ rest).drop 13 := hdrop 13 (by omega)
  simp only [edmi_parse_read_registers_answer, hlen, hg12, hd13]
  rw [parseRegsLoop_congr _ _ _ hdrop regs 17 [] (by omega)]

/-- Witness for C3 amended: two headers differing in the serial field lead
to the same parse of the example payload tail. -/
theorem parse_answer_ignores_serial_witness :
    edmi_parse_read_registers_answer (respHeader 1 ++ (mismatchedSerialPayload.drop 12))
        [floatReg "PHASE_A_VOLTAGE" 0xE000] =
      edmi_parse_read_registers_answer (respHeader 2 ++ (mismatchedSerialPayload.drop 12))
        [floatReg "PHASE_A_VOLTAGE" 0xE000] :=
  parse_answer_ignores_serial (respHeader 1) (respHeader 2) (mismatchedSerialPayload.drop 12)
    [floatReg "PHASE_A_VOLTAGE" 0xE000] (by decide) (by decide)

set_option maxRecDepth 100000 in
/-- Counterexample for C8: the decoders do not read FLOAT_ENERGY as an
unsigned 32-bit integer.  The READ_REGISTER_EXT decoder reads 3F 80 00 00 as
the IEEE float 1.0, not the u32 1065353216; the profile field decoder reads
80 00 00 00 as the signed -2147483648, not the u32 2147483648. -/
theorem float_energy_not_u32_cex :
    x_parse_value T_FLOAT_ENERGY [0x3F, 0x80, 0x00, 0x00] = some (.float (.finite 1)) ∧
    beNat [0x3F, 0x80, 0x00, 0x00] = 1065353216 ∧
    some (EDMIValue.float (.finite 1)) ≠ some (EDMIValue.int 1065353216) ∧
    x_read_value [0x80, 0x00, 0x00, 0x00] 0 T_FLOAT_ENERGY =
      some (some (.int (-2147483648)), 4, ERR_NONE) ∧
    beNat [0x80, 0x00, 0x00, 0x00] = 2147483648 ∧
    some (EDMIValue.int (-2147483648)) ≠ some (EDMIValue.int 2147483648) := by decide

/-- C8 amended: a FLOAT_ENERGY value region is 4 bytes in both decoders, but
the READ_REGISTER_EXT register decoder interprets it as a big-endian IEEE
binary32 float while the profile record field decoder interprets it as a
big-endian signed 32-bit integer; neither yields the unsigned 32-bit
reading. -/
theorem float_energy_decoders (chunk : List Nat) (h4 : chunk.length = 4) :
    x_parse_value T_FLOAT_ENERGY chunk = some (.float (decodeF32 (beNat chunk))) ∧
    x_read_value chunk 0 T_FLOAT_ENERGY =
      some (some (.int (toSigned 32 (beNat chunk))), 4, ERR_NONE) := by
  have htk : (chunk.drop 0).take 4 = chunk := by
    rw [List.drop_zero]
    exact List.take_of_length_le (by omega)
  constructor
  · simp only [x_parse_value]
    norm_num [T_FLOAT_ENERGY, T_BYTE, T_BOOLEAN, T_DATE, T_TIME, T_DATE_TIME,
      T_SERIAL_NUMBER, T_ERROR_STRING, T_STRING, T_STRING_LONG, T_EFA_STRING,
      T_DOUBLE, T_DOUBLE_ENERGY, T_FLOAT, T_POWER_FACTOR, h4]
  · simp only [x_read_value, htk]
    norm_num [T_FLOAT_ENERGY, T_BYTE, T_BOOLEAN, T_STRING, T_STRING_LONG, T_EFA_STRING,
      T_ERROR_STRING, T_SHORT, T_HEX_SHORT, T_LONG, T_HEX_LONG,
      T_REGISTER_NUMBER_HEX_LONG, T_LONG_LONG, T_FLOAT, T_POWER_FACTOR,
      EDMI_TYPE_CODES, T_DOUBLE, T_DOUBLE_ENERGY, T_DATE, T_TIME, T_DATE_TIME,
      T_VARIABLE_SPACE, T_NONE_TYPE, T_SPECIAL, T_WAVEFORM, T_SERIAL_NUMBER, h4, htk]

/-- Witness for C8 amended at the bit pattern of 1.0f. -/
theorem float_energy_decoders_witness :
    x_parse_value T_FLOAT_ENERGY [0x3F, 0x80, 0x00, 0x00] =
      some (.float (decodeF32 (beNat [0x3F, 0x80, 0x00, 0x00]))) ∧
    x_read_value [0x3F, 0x80, 0x00, 0x00] 0 T_FLOAT_ENERGY =
      some (some (.int (toSigned 32 (beNat [0x3F, 0x80, 0x00, 0x00]))), 4, ERR_NONE) :=
  float_energy_decoders [0x3F, 0x80, 0x00, 0x00] (by decide)

/-- Counterexample for C4: a FILE_INFO parse failure (step 3) with every
other step succeeding makes the engine return at once with that error; it
does not proceed through SEARCH and the chunked READ with the failure only
recorded as first_err. -/
theorem read_profile_flow_cex :
    fileInfoFailOracle.fileInfoErr ≠ ERR_NONE ∧
    edmi_read_profile_flow fileInfoFailOracle =
      ⟨true, false, false, ERR_REQUEST_WRONG_LENGTH⟩ := by decide

/-- Folding the first_err recording over a list computes the first non-NONE
entry once the accumulator is NONE. -/
theorem foldl_recordFirst (l : List Nat) :
    ∀ f, l.foldl recordFirst f = if f ≠ ERR_NONE then f else firstErrOf l := by
  induction l with
  | nil =>
    intro f
    by_cases hf : f = ERR_NONE <;> simp [firstErrOf, hf]
  | cons b t ih =>
    intro f
    rw [List.foldl_cons, ih]
    by_cases hf : f = ERR_NONE
    · subst hf
      by_cases hb : b = ERR_NONE
      · subst hb
        simp [recordFirst, firstErrOf, List.find?_cons]
      · simp [recordFirst, hb, firstErrOf, List.find?_cons]
    · simp [recordFirst, hf]

/-- The per-channel double recording equals recording over the flattened
error list. -/
theorem foldl_recordFirst_pairs (l : List (Nat × Nat)) :
    ∀ f, l.foldl (fun acc pe => recordFirst (recordFirst acc pe.1) pe.2) f =
      (l.flatMap (fun pe => [pe.1, pe.2])).foldl recordFirst f := by
  induction l with
  | nil => intro f; rfl
  | cons pe t ih =>
    intro f
    rw [List.foldl_cons, List.flatMap_cons, List.foldl_append, ih]
    rfl

/-- The tail of the run after FILE_INFO: the final error is first_err when
set, else the READ error (NONE on success), with first_err computed over all
recorded step errors. -/
theorem flow_rest_final (o : ProfileOracle) :
    readProfileFlowRest o (recordFirst (recordFirst ERR_NONE o.infoRegsErr) o.setInfoErr) =
      ⟨true, true, true,
        if firstErrOf (recordedErrs o) ≠ ERR_NONE then firstErrOf (recordedErrs o)
        else o.readErr⟩ := by
  have h3 : recordFirst (recordFirst
      (o.chanErrs.foldl (fun f pe => recordFirst (recordFirst f pe.1) pe.2)
        (recordFirst (recordFirst ERR_NONE o.infoRegsErr) o.setInfoErr))
      o.searchFromErr) o.searchToErr = firstErrOf (recordedErrs o) := by
    rw [foldl_recordFirst_pairs]
    rw [show recordFirst (recordFirst
        ((o.chanErrs.flatMap (fun pe => [pe.1, pe.2])).foldl recordFirst
          (recordFirst (recordFirst ERR_NONE o.infoRegsErr) o.setInfoErr))
        o.searchFromErr) o.searchToErr =
      (recordedErrs o).foldl recordFirst ERR_NONE from by
        simp [recordedErrs, List.foldl_cons, List.foldl_append]]
    rw [foldl_recordFirst]
    simp
  simp only [readProfileFlowRest]
  rw [h3]
  by_cases hre : o.readErr = ERR_NONE
  · simp only [hre, ne_eq, not_true_eq_false, if_false]
    by_cases hF : firstErrOf (recordedErrs o) = ERR_NONE <;> simp [hF, hre]
  · simp [hre]

/-- C4 amended: a REGISTER_NOT_FOUND while populating FileInfo in step 2
aborts at once with that error, and any FILE_INFO (step 3) failure aborts
before SEARCH with that error; all other failures of steps 2 and 4-6 (info
register parse, channel descriptors, both SEARCH calls) are only recorded as
first_err while the engine continues through the chunked READ, and the
caller receives first_err when set, else the READ error, else NONE. -/
theorem read_profile_flow_amended (o : ProfileOracle) :
    (o.setInfoErr = ERR_REGISTER_NOT_FOUND →
      edmi_read_profile_flow o = ⟨false, false, false, o.setInfoErr⟩) ∧
    (o.setInfoErr ≠ ERR_REGISTER_NOT_FOUND → o.fileInfoErr ≠ ERR_NONE →
      edmi_read_profile_flow o = ⟨true, false, false, o.fileInfoErr⟩) ∧
    (o.setInfoErr ≠ ERR_REGISTER_NOT_FOUND → o.fileInfoErr = ERR_NONE →
      edmi_read_profile_flow o = ⟨true, true, true,
        if firstErrOf (recordedErrs o) ≠ ERR_NONE then firstErrOf (recordedErrs o)
        else o.readErr⟩) := by
  refine ⟨?_, ?_, ?_⟩
  · intro hset
    have hne : o.setInfoErr ≠ ERR_NONE := by rw [hset]; decide
    simp [edmi_read_profile_flow, hset, hne, ERR_REGISTER_NOT_FOUND, ERR_NONE]
  · intro hset hfi
    unfold edmi_read_profile_flow
    by_cases hs0 : o.setInfoErr = ERR_NONE
    · simp [hs0, hfi]
    · simp [hs0, hset, hfi]
  · intro hset hfi
    unfold edmi_read_profile_flow
    by_cases hs0 : o.setInfoErr = ERR_NONE
    · rw [if_neg (by simp [hs0]), if_neg (by simp [hfi])]
      rw [show recordFirst ERR_NONE o.infoRegsErr =
        recordFirst (recordFirst ERR_NONE o.infoRegsErr) o.setInfoErr from by
          simp [recordFirst, hs0]]
      exact flow_rest_final o
    · rw [if_pos hs0, if_neg hset, if_neg (by simp [hfi])]
      exact flow_rest_final o

/-- Witness for C4 amended: a from-SEARCH failure is recorded and returned
as first_err while the READ still happens. -/
theorem read_profile_flow_amended_witness :
    edmi_read_profile_flow searchFailOracle = ⟨true, true, true,
      if firstErrOf (recordedErrs searchFailOracle) ≠ ERR_NONE then
        firstErrOf (recordedErrs searchFailOracle)
      else searchFailOracle.readErr⟩ :=
  (read_profile_flow_amended searchFailOracle).2.2 (by decide) (by decide)

/-- Integer form of the ceiling of a rational division with positive
divisor. -/
theorem ceil_div_eq_ediv (a b : Int) (hb : 0 < b) :
    ⌈(a : ℚ) / (b : ℚ)⌉ = (a + b - 1) / b := by
  have hbq : (0 : ℚ) < (b : ℚ) := by exact_mod_cast hb
  have h1 : (a + b - 1) / b * b ≤ a + b - 1 := Int.ediv_mul_le _ (by omega)
  have h2 : a + b - 1 < ((a + b - 1) / b + 1) * b := Int.lt_ediv_add_one_mul_self _ hb
  have e1 : ((a + b - 1) / b - 1) * b = (a + b - 1) / b * b - b := by ring
  have e2 : ((a + b - 1) / b + 1) * b = (a + b - 1) / b * b + b := by ring
  rw [Int.ceil_eq_iff]
  constructor
  · rw [lt_div_iff hbq]
    have hz : ((a + b - 1) / b - 1) * b < a := by rw [e1]; linarith
    exact_mod_cast hz
  · rw [div_le_iff hbq]
    have hz : a ≤ (a + b - 1) / b * b := by
      rw [e2] at h2
      linarith
    exact_mod_cast hz

/-- C5.  The initial per-read limit is 59 for LS01 and 288 for LS03,
otherwise the ceiling of 86400 over the interval when the interval is
positive, otherwise 48; and a positive cached limit for the key caps the
heuristic by a minimum. -/
theorem initial_limit_spec (survey : Nat) (interval : Int) (c : Nat) (hc : 0 < c) :
    initial_per_read_limit survey interval (some c) =
      min (initial_per_read_limit survey interval none) c ∧
    initial_per_read_limit SURVEY_LS01 interval none = 59 ∧
    initial_per_read_limit SURVEY_LS03 interval none = 288 ∧
    (survey ≠ SURVEY_LS01 → survey ≠ SURVEY_LS03 → 0 < interval →
      initial_per_read_limit survey interval none = (⌈(86400 : ℚ) / (interval : ℚ)⌉).toNat) ∧
    (survey ≠ SURVEY_LS01 → survey ≠ SURVEY_LS03 → interval ≤ 0 →
      initial_per_read_limit survey interval none = 48) := by
  have hc0 : c ≠ 0 := by omega
  refine ⟨by simp [initial_per_read_limit, hc0], by simp [initial_per_read_limit],
    by simp [initial_per_read_limit, SURVEY_LS01, SURVEY_LS03], ?_, ?_⟩
  · intro h1 h2 hint
    have hone : (1 : Int) ≤ (86400 + interval - 1) / interval := by
      rw [Int.le_ediv_iff_mul_le hint]
      omega
    rw [show ⌈(86400 : ℚ) / (interval : ℚ)⌉ = (86400 + interval - 1) / interval from
      ceil_div_eq_ediv 86400 interval hint]
    simp only [initial_per_read_limit, if_neg h1, if_neg h2, if_pos hint]
    omega
  · intro h1 h2 hint
    simp [initial_per_read_limit, h1, h2, not_lt.mpr hint]

/-- Witness for C5 at survey 1, interval 1800 s, cached limit 30. -/
theorem initial_limit_spec_witness :
    initial_per_read_limit 1 1800 (some 30) = min (initial_per_read_limit 1 1800 none) 30 ∧
    initial_per_read_limit 1 1800 none = (⌈(86400 : ℚ) / ((1800 : Int) : ℚ)⌉).toNat :=
  ⟨(initial_limit_spec 1 1800 30 (by decide)).1,
   (initial_limit_spec 1 1800 30 (by decide)).2.2.2.1 (by decide) (by decide) (by decide)⟩

theorem cacheGet_cacheSet (c : LimitCache) (k : Nat × Nat × Nat) (v : Nat) :
    cacheGet (cacheSet c k v) k = some v := by
  simp [cacheGet, cacheSet, List.find?_cons]

/-- With the limit already at K and a transport returning min of the request
and K, the loop never sees a short response again: the cache is unchanged
and the read completes with NONE. -/
theorem loop_capped_no_learn (K channels : Nat) (key : Nat × Nat × Nat)
    (hch : channels ≠ 0) (hK : 0 < K) :
    ∀ remaining nextStart cache,
      readRecordsLoop (fun _ c => min c K) channels key remaining nextStart K cache =
        (cache, ERR_NONE) := by
  intro remaining
  induction remaining using Nat.strong_induction_on with
  | _ remaining ih =>
    intro nextStart cache
    by_cases h0 : remaining = 0
    · subst h0
      rw [readRecordsLoop]
      simp
    · rw [readRecordsLoop, dif_neg h0]
      have hrn : min (min remaining K) K = min remaining K := by omega
      simp only [hrn, lt_self_iff_false, and_false, if_false]
      rw [if_neg hch]
      rw [Nat.mul_div_cancel _ (by omega : 0 < channels)]
      obtain ⟨k, hk⟩ : ∃ k, min remaining K = k + 1 := ⟨min remaining K - 1, by omega⟩
      rw [hk]
      exact ih (remaining - (k + 1)) (by omega) _ _

/-- C6.  Against a transport that caps every READ at K records, a run whose
first request exceeds K learns K: the per-read limit drops to K, the cache
maps (survey, record size, channels) to K, and any subsequent read_records
with the same key issues its first READ with a count of at most K. -/
theorem adaptive_chunk_learning (K survey recordSize channels : Nat) (interval : Int)
    (cache : LimitCache) (start total total2 : Nat) (hch : 0 < channels) (hK : 0 < K)
    (hbig : K < min total
      (initial_per_read_limit survey interval (cacheGet cache (survey, recordSize, channels)))) :
    (read_records (fun _ c => min c K) survey recordSize channels interval cache start total).1 =
      cacheSet cache (survey, recordSize, channels) K ∧
    cacheGet (read_records (fun _ c => min c K) survey recordSize channels interval cache
        start total).1 (survey, recordSize, channels) = some K ∧
    first_read_count survey interval
      (read_records (fun _ c => min c K) survey recordSize channels interval cache start total).1
      recordSize channels total2 ≤ K := by
  have hrun : read_records (fun _ c => min c K) survey recordSize channels interval cache
      start total = (cacheSet cache (survey, recordSize, channels) K, ERR_NONE) := by
    unfold read_records
    rw [readRecordsLoop, dif_neg (by omega : ¬ total = 0)]
    have hchunk : min (min total
        (initial_per_read_limit survey interval (cacheGet cache (survey, recordSize, channels)))) K
        = K := by omega
    simp only [hchunk]
    have hcond : 0 < K ∧ K < min total (initial_per_read_limit survey interval
        (cacheGet cache (survey, recordSize, channels))) := ⟨hK, by omega⟩
    rw [if_pos hcond, if_pos hcond, if_neg (by omega : ¬ channels = 0),
      Nat.mul_div_left K hch]
    have hminL : min (initial_per_read_limit survey interval
        (cacheGet cache (survey, recordSize, channels))) K = K := by omega
    rw [hminL]
    obtain ⟨k, hk⟩ : ∃ k, K = k + 1 := ⟨K - 1, by omega⟩
    rw [hk]
    exact loop_capped_no_learn (k + 1) channels _ (by omega) (by omega) _ _ _
  rw [hrun]
  refine ⟨rfl, cacheGet_cacheSet _ _ _, ?_⟩
  unfold first_read_count
  rw [cacheGet_cacheSet]
  simp only [initial_per_read_limit, if_neg (by omega : ¬ K = 0)]
  split <;> omega

/-- Witness for C6: LS03 heuristic 288, transport capped at 60, a 500-record
window; the cache learns 60 and the next first READ is at most 60. -/
theorem adaptive_chunk_learning_witness :
    (read_records (fun _ c => min c 60) 0x0345 13 2 1800 [] 100 500).1 =
      cacheSet [] (0x0345, 13, 2) 60 ∧
    cacheGet (read_records (fun _ c => min c 60) 0x0345 13 2 1800 [] 100 500).1
      (0x0345, 13, 2) = some 60 ∧
    first_read_count 0x0345 1800
      (read_records (fun _ c => min c 60) 0x0345 13 2 1800 [] 100 500).1 13 2 999 ≤ 60 :=
  adaptive_chunk_learning 60 0x0345 13 2 1800 [] 100 500 999 (by decide) (by decide)
    (by decide)

end EDMI
